import Mathlib

/-!
Shallow embedding of the easytab-rs tablet core (src/main.rs and src/win32.rs)
and verification of its specification claims.

Modelling conventions:
- `Cell<T>` fields of `__InnerTablet` become plain fields; `&self` methods that
  write cells become explicit state-passing functions.
- Win32/COM calls (`CoCreateInstance`, `SetHWND`, `GetStylusAsyncPluginCount`,
  `AddStylusAsyncPlugin`, `SetEnabled`) are external collaborators; they are
  modelled as an oracle record `Win32Platform` whose fields give the result of
  each call (`Except WinErr _`), mirroring `windows::core::Result`.
- Rust panics (`debug_assert!` failure, `todo!()`) are a distinct error channel
  `RustPanic`; `debug_assert!` checks only when debug assertions are compiled
  in, so it takes the build flag `dbg` explicitly.
- The registered callback `Cell<Option<Box<dyn Fn(WinTabEvent)>>>` is modelled
  as an opaque identifier slot `Option Nat` (only slot occupancy matters), and
  every function that could invoke the callback also returns the list of
  events the callback was invoked with during the call, so that observer
  invocations are observable in the model.
-/

/-- src/win32.rs `WinTabEvent`: the canonical event vocabulary. -/
inductive WinTabEvent
  | StylusActive
  | StylusInactive
  | StylusButtonDown (x y : Int)
  | StylusButtonUp (x y : Int)
  deriving DecidableEq, Repr

/-- src/win32.rs `WinTabletIndex`. -/
inductive WinTabletIndex
  | Default
  | Index (i : Int)
  deriving DecidableEq, Repr

/-- src/main.rs `EasyTabOptions`. -/
structure EasyTabOptions where
  retry_on_change : Bool
  index : WinTabletIndex

/-- `EasyTabOptions::default()`: `retry_on_change = false`, `index = Default`. -/
def EasyTabOptions.default : EasyTabOptions :=
  { retry_on_change := false, index := .Default }

/-- A `windows::core::Error`, reduced to the message it carries
(`Error::message()` is all the code reads from it). -/
structure WinErr where
  message : String
  deriving DecidableEq, Repr

/-- src/main.rs `EasyTabError` (single variant `WinError` on windows). -/
inductive EasyTabError
  | WinError (msg : String)
  deriving DecidableEq, Repr

/-- A Rust panic: either a failed `debug_assert!` or a reached `todo!()`. -/
inductive RustPanic
  | assertionFailed
  | todoUnimplemented
  deriving DecidableEq, Repr

/-- src/main.rs `__InnerTablet`: the shared state behind the `Rc`.
The source field `on` is a Lean keyword, so it is named `on_cb` here;
the `Box<dyn Fn(WinTabEvent)>` it may hold is an opaque identifier. -/
structure __InnerTablet where
  active : Bool
  x : Int
  y : Int
  pressure : Float
  opts : EasyTabOptions
  on_cb : Option Nat

/-- src/win32.rs `ERROR_FN`: maps a windows error to an easytab error. -/
def ERROR_FN : WinErr → EasyTabError
  | e => .WinError e.message

/-- Rust `Result::map_err`, specialised to the use in this crate. -/
def mapErr (r : Except WinErr α) (f : WinErr → EasyTabError) : Except EasyTabError α :=
  match r with
  | .ok a => .ok a
  | .error e => .error (f e)

/-- `debug_assert!(cond)`: when debug assertions are compiled in (`dbg = true`)
a false condition panics; in release builds (`dbg = false`) nothing is checked. -/
def debugAssert (dbg : Bool) (cond : Bool) : Except RustPanic Unit :=
  if dbg && !cond then .error .assertionFailed else .ok ()

/-- Arm 1 of the `match` in `__InnerTablet::handle_event`:
`WinTabEvent::StylusActive => self.active.set(true)`. -/
def armStylusActive (s : __InnerTablet) : WinTabEvent → Option __InnerTablet
  | .StylusActive => some { s with active := true }
  | _ => none

/-- Arm 2 of the `match` in `__InnerTablet::handle_event`:
`WinTabEvent::StylusInactive => self.active.set(false)`. -/
def armStylusInactive (s : __InnerTablet) : WinTabEvent → Option __InnerTablet
  | .StylusInactive => some { s with active := false }
  | _ => none

/-- Arm 3 of the `match` in `__InnerTablet::handle_event`:
`StylusButtonDown(x, y) | StylusButtonUp(x, y) => { self.x.set(x); self.y.set(y); }`. -/
def armStylusButtons (s : __InnerTablet) : WinTabEvent → Option __InnerTablet
  | .StylusButtonDown x y | .StylusButtonUp x y => some { s with x := x, y := y }
  | _ => none

/-- src/win32.rs `__InnerTablet::handle_event`, with the `match` of the source
compiled arm by arm in order (Rust semantics: first matching arm wins) and its
catch-all arm `_ => todo!()` as the final default. Returns the updated state
together with the observer invocations performed during the call; the source
performs none — the code that would invoke `self.on` is commented out
(src/win32.rs lines 233-242) — so every arm contributes `[]`. -/
def __InnerTablet.handle_event (s : __InnerTablet) (event : WinTabEvent) :
    Except RustPanic (__InnerTablet × List WinTabEvent) :=
  match armStylusActive s event with
  | some s1 => .ok (s1, [])
  | none =>
    match armStylusInactive s event with
    | some s1 => .ok (s1, [])
    | none =>
      match armStylusButtons s event with
      | some s1 => .ok (s1, [])
      | none => .error .todoUnimplemented

/-- The raw `IStylusPlugin` notifications delivered by the RealTimeStylus
driver, one constructor per handler method implemented by
`AsyncStylusHandler` in src/win32.rs. Payload fields the handler bodies never
read (packet counts, buffers, GUIDs, stylus info, ...) are omitted; the
button handlers read `pstyluspos`, kept as `(x, y)`. -/
inductive RawNotification
  | RealTimeStylusEnabled
  | RealTimeStylusDisabled
  | StylusInRange
  | StylusOutOfRange
  | StylusDown
  | StylusUp
  | StylusButtonDown (x y : Int)
  | StylusButtonUp (x y : Int)
  | InAirPackets
  | Packets
  | CustomStylusDataAdded
  | SystemEvent
  | TabletAdded
  | TabletRemoved
  | Error
  | UpdateMapping
  deriving DecidableEq, Repr

/-- Result of delivering one raw notification to `AsyncStylusHandler`:
the `WinTabEvent` constructed and passed to `handle_event` (if any), the
resulting tablet state, and the observer invocations performed. -/
structure DispatchOut where
  event : Option WinTabEvent
  state : __InnerTablet
  obs : List WinTabEvent

/-- src/win32.rs `impl IStylusPlugin_Impl for AsyncStylusHandler`: delivery of
one raw notification. `dbg` is the debug-assertions build flag; `origin_ok`
says whether the `pirtssrc` of the notification equals the own
`self.0.stylus` — the condition each recognized handler checks with
`debug_assert!` before calling `handle_event`. The remaining handlers
(`RealTimeStylusEnabled`, `StylusInRange`, `InAirPackets`, `Packets`,
`CustomStylusDataAdded`, `SystemEvent`, `TabletAdded`, `TabletRemoved`,
`Error`, `UpdateMapping`) at most print and return `Ok(())`. -/
def AsyncStylusHandler.dispatch (dbg origin_ok : Bool) (s : __InnerTablet) :
    RawNotification → Except RustPanic DispatchOut
  | .RealTimeStylusEnabled => .ok ⟨none, s, []⟩
  | .RealTimeStylusDisabled => do
      debugAssert dbg origin_ok
      let (s1, calls) ← s.handle_event .StylusInactive
      .ok ⟨some .StylusInactive, s1, calls⟩
  | .StylusInRange => .ok ⟨none, s, []⟩
  | .StylusOutOfRange => do
      debugAssert dbg origin_ok
      let (s1, calls) ← s.handle_event .StylusInactive
      .ok ⟨some .StylusInactive, s1, calls⟩
  | .StylusDown => do
      debugAssert dbg origin_ok
      let (s1, calls) ← s.handle_event .StylusActive
      .ok ⟨some .StylusActive, s1, calls⟩
  | .StylusUp => do
      debugAssert dbg origin_ok
      let (s1, calls) ← s.handle_event .StylusInactive
      .ok ⟨some .StylusInactive, s1, calls⟩
  | .StylusButtonDown x y => do
      debugAssert dbg origin_ok
      let (s1, calls) ← s.handle_event (.StylusButtonDown x y)
      .ok ⟨some (.StylusButtonDown x y), s1, calls⟩
  | .StylusButtonUp x y => do
      debugAssert dbg origin_ok
      let (s1, calls) ← s.handle_event (.StylusButtonUp x y)
      .ok ⟨some (.StylusButtonUp x y), s1, calls⟩
  | .InAirPackets => .ok ⟨none, s, []⟩
  | .Packets => .ok ⟨none, s, []⟩
  | .CustomStylusDataAdded => .ok ⟨none, s, []⟩
  | .SystemEvent => .ok ⟨none, s, []⟩
  | .TabletAdded => .ok ⟨none, s, []⟩
  | .TabletRemoved => .ok ⟨none, s, []⟩
  | .Error => .ok ⟨none, s, []⟩
  | .UpdateMapping => .ok ⟨none, s, []⟩

/-- Sequential delivery of a list of raw notifications to the handler,
threading the state and concatenating the observer invocations. -/
def runNotifications (dbg origin_ok : Bool) (s : __InnerTablet) :
    List RawNotification → Except RustPanic (__InnerTablet × List WinTabEvent)
  | [] => .ok (s, [])
  | n :: rest =>
    match AsyncStylusHandler.dispatch dbg origin_ok s n with
    | .error p => .error p
    | .ok out =>
      match runNotifications dbg origin_ok out.state rest with
      | .error p => .error p
      | .ok (s1, calls) => .ok (s1, out.obs ++ calls)

/-- Sequential application of already-translated canonical events through
`handle_event`, threading the state and concatenating observer invocations. -/
def applyEvents (s : __InnerTablet) :
    List WinTabEvent → Except RustPanic (__InnerTablet × List WinTabEvent)
  | [] => .ok (s, [])
  | e :: rest =>
    match s.handle_event e with
    | .error p => .error p
    | .ok (s1, calls) =>
      match applyEvents s1 rest with
      | .error p => .error p
      | .ok (s2, more) => .ok (s2, calls ++ more)

/-- The Win32/COM collaborator, as an oracle giving the outcome of each
external call `EasyTablet::init_options`, `enable` and `disable` perform. -/
structure Win32Platform where
  coCreateInstance : Except WinErr Unit
  setHWND : Except WinErr Unit
  getStylusAsyncPluginCount : Except WinErr Nat
  addStylusAsyncPlugin : Except WinErr Unit
  setEnabled : Bool → Except WinErr Unit

/-- The inner tablet as `init_options` constructs it: every `Cell` at
`Default::default()` (`false`, `0`, `0`, `0.0`, no callback). -/
def initTablet (opts : EasyTabOptions) : __InnerTablet :=
  { active := false, x := 0, y := 0, pressure := 0.0, opts := opts, on_cb := none }

/-- src/win32.rs `EasyTablet::init_options`: creates the stylus
(`CoCreateInstance`), binds it to the window (`SetHWND`), builds the inner
tablet with defaulted cells, then registers the async plugin
(`GetStylusAsyncPluginCount` followed by `AddStylusAsyncPlugin`). Every
external failure is surfaced via `map_err(ERROR_FN)?`, written here as the
explicit match that `?` desugars to. The `_hwnd` argument is consumed only by
the external `SetHWND` call. -/
def EasyTablet.init_options (p : Win32Platform) (_hwnd : Nat) (opts : EasyTabOptions) :
    Except EasyTabError __InnerTablet :=
  match mapErr p.coCreateInstance ERROR_FN with
  | .error e => .error e
  | .ok _ =>
    match mapErr p.setHWND ERROR_FN with
    | .error e => .error e
    | .ok _ =>
      match mapErr p.getStylusAsyncPluginCount ERROR_FN with
      | .error e => .error e
      | .ok _ =>
        match mapErr p.addStylusAsyncPlugin ERROR_FN with
        | .error e => .error e
        | .ok _ => .ok (initTablet opts)

/-- src/win32.rs `EasyTablet::init`: `init_options` with default options. -/
def EasyTablet.init (p : Win32Platform) (hwnd : Nat) : Except EasyTabError __InnerTablet :=
  EasyTablet.init_options p hwnd EasyTabOptions.default

/-- src/win32.rs `EasyTablet::enable`: `self.stylus.SetEnabled(true)`, error
mapped through `ERROR_FN`; no field of the inner tablet is touched, so the
state is returned unchanged on success. -/
def EasyTablet.enable (p : Win32Platform) (s : __InnerTablet) :
    Except EasyTabError (Unit × __InnerTablet) :=
  match mapErr (p.setEnabled true) ERROR_FN with
  | .error e => .error e
  | .ok _ => .ok ((), s)

/-- src/win32.rs `EasyTablet::disable`: `self.stylus.SetEnabled(false)`, error
mapped through `ERROR_FN`; no field of the inner tablet is touched. -/
def EasyTablet.disable (p : Win32Platform) (s : __InnerTablet) :
    Except EasyTabError (Unit × __InnerTablet) :=
  match mapErr (p.setEnabled false) ERROR_FN with
  | .error e => .error e
  | .ok _ => .ok ((), s)

/-- src/win32.rs `EasyTablet::on`: `self.on.set(Some(cb))` (replaces any
previously registered callback). Named `on_set` because `on` is a Lean
keyword. -/
def EasyTablet.on_set (s : __InnerTablet) (cb : Nat) : __InnerTablet :=
  { s with on_cb := some cb }

/-- src/win32.rs `EasyTablet::active`: `self.active.get()`. -/
def EasyTablet.active (s : __InnerTablet) : Bool := s.active

/-- src/win32.rs `EasyTablet::x`: `self.x.get()`. -/
def EasyTablet.x (s : __InnerTablet) : Int := s.x

/-- src/win32.rs `EasyTablet::y`: `self.y.get()`. -/
def EasyTablet.y (s : __InnerTablet) : Int := s.y

/-- src/win32.rs `EasyTablet::pressure`: `self.pressure.get()`. -/
def EasyTablet.pressure (s : __InnerTablet) : Float := s.pressure

/-- An all-succeeding platform oracle, for concrete instantiations. -/
def pOK : Win32Platform :=
  { coCreateInstance := .ok ()
    setHWND := .ok ()
    getStylusAsyncPluginCount := .ok 0
    addStylusAsyncPlugin := .ok ()
    setEnabled := fun _ => .ok () }

/-- The state transformation each arm of `handle_event` performs, as a pure
total function; `handle_event_ok` below proves that `handle_event` always
succeeds with exactly this state and no observer invocation. -/
def applyPure (s : __InnerTablet) : WinTabEvent → __InnerTablet
  | .StylusActive => { s with active := true }
  | .StylusInactive => { s with active := false }
  | .StylusButtonDown x y | .StylusButtonUp x y => { s with x := x, y := y }

/-- Helper: `handle_event` never reaches its catch-all arm and performs the
pure update `applyPure` with no observer invocation. -/
theorem handle_event_ok (s : __InnerTablet) (e : WinTabEvent) :
    s.handle_event e = .ok (applyPure s e, []) := by
  cases e <;> rfl

/-- Helper: `applyEvents` always succeeds, folding `applyPure` over the
events and invoking the observer zero times. -/
theorem applyEvents_eq_foldl : ∀ (evs : List WinTabEvent) (s : __InnerTablet),
    applyEvents s evs = .ok (evs.foldl applyPure s, []) := by
  intro evs
  induction evs with
  | nil => intro s; rfl
  | cons e rest ih =>
    intro s
    simp only [applyEvents, handle_event_ok, ih (applyPure s e), List.foldl, List.nil_append]

/-- Helper: `applyPure` never writes the `pressure` field. -/
theorem foldl_applyPure_pressure : ∀ (evs : List WinTabEvent) (s : __InnerTablet),
    (evs.foldl applyPure s).pressure = s.pressure := by
  intro evs
  induction evs with
  | nil => intro s; rfl
  | cons e rest ih => intro s; cases e <;> exact ih _

/-- C10: `handle_event` is total over `WinTabEvent`: for each of its four
variants it returns `Ok` (with the updated state and no observer
invocation); the catch-all `todo!()` arm of its match is unreachable because
the preceding arms cover all variants. -/
theorem c10_handle_event_total (s : __InnerTablet) (e : WinTabEvent) :
    ∃ s1, s.handle_event e = .ok (s1, []) := by
  cases e <;> exact ⟨_, rfl⟩

/-- C4: every applied canonical event updates the state as a whole-event
application: `StylusButtonDown(x,y)` and `StylusButtonUp(x,y)` set `x` and
`y` together to that payload, leaving `active`, `pressure` (and the observer
slot) unchanged, while `StylusActive`/`StylusInactive` set only `active`; so
no state mixes fields of two different events. -/
theorem c4_whole_event_application (s : __InnerTablet) (x y : Int) :
    s.handle_event (.StylusButtonDown x y) = .ok ({ s with x := x, y := y }, [])
    ∧ s.handle_event (.StylusButtonUp x y) = .ok ({ s with x := x, y := y }, [])
    ∧ s.handle_event .StylusActive = .ok ({ s with active := true }, [])
    ∧ s.handle_event .StylusInactive = .ok ({ s with active := false }, []) :=
  ⟨rfl, rfl, rfl, rfl⟩

/-- C5: from a freshly initialized handle, the sequence [contact-begin,
button-down(5,7), contact-end] — raw notifications `StylusDown`,
`StylusButtonDown(5,7)`, `StylusUp`, translated to canonical events
`StylusActive`, `StylusButtonDown(5,7)`, `StylusInactive` — leaves the
state with `active = false`, `x = 5`, `y = 7`. -/
theorem c5_toggle_sequence_final_state :
    runNotifications true true (initTablet EasyTabOptions.default)
        [.StylusDown, .StylusButtonDown 5 7, .StylusUp]
      = .ok ({ active := false, x := 5, y := 7, pressure := 0.0,
               opts := EasyTabOptions.default, on_cb := none }, [])
    ∧ applyEvents (initTablet EasyTabOptions.default)
        [.StylusActive, .StylusButtonDown 5 7, .StylusInactive]
      = .ok ({ active := false, x := 5, y := 7, pressure := 0.0,
               opts := EasyTabOptions.default, on_cb := none }, []) :=
  ⟨rfl, rfl⟩

/-- C3: every raw notification kind outside the recognized set
{digitizer-disabled, out-of-range, contact-begin, contact-end, button-down,
button-up} — stylus-enabled, stylus-in-range, in-air packets, packets,
custom stylus data, system events, tablet added/removed, driver errors,
mapping updates — produces no canonical event, leaves the state completely
unchanged and never invokes the observer, for any build flag and origin. -/
theorem c3_unrecognized_kinds_ignored (dbg origin_ok : Bool) (s : __InnerTablet) :
    AsyncStylusHandler.dispatch dbg origin_ok s .RealTimeStylusEnabled = .ok ⟨none, s, []⟩
    ∧ AsyncStylusHandler.dispatch dbg origin_ok s .StylusInRange = .ok ⟨none, s, []⟩
    ∧ AsyncStylusHandler.dispatch dbg origin_ok s .InAirPackets = .ok ⟨none, s, []⟩
    ∧ AsyncStylusHandler.dispatch dbg origin_ok s .Packets = .ok ⟨none, s, []⟩
    ∧ AsyncStylusHandler.dispatch dbg origin_ok s .CustomStylusDataAdded = .ok ⟨none, s, []⟩
    ∧ AsyncStylusHandler.dispatch dbg origin_ok s .SystemEvent = .ok ⟨none, s, []⟩
    ∧ AsyncStylusHandler.dispatch dbg origin_ok s .TabletAdded = .ok ⟨none, s, []⟩
    ∧ AsyncStylusHandler.dispatch dbg origin_ok s .TabletRemoved = .ok ⟨none, s, []⟩
    ∧ AsyncStylusHandler.dispatch dbg origin_ok s .Error = .ok ⟨none, s, []⟩
    ∧ AsyncStylusHandler.dispatch dbg origin_ok s .UpdateMapping = .ok ⟨none, s, []⟩ :=
  ⟨rfl, rfl, rfl, rfl, rfl, rfl, rfl, rfl, rfl, rfl⟩

/-- C1 counterexample: in a release build (debug assertions disabled), a
button-down notification whose reported source does NOT match the bound
connection (`origin_ok = false`) is processed normally — the state IS
mutated (x, y go from their defaults 0, 0 to 1, 2) and no fault of any kind
is signalled — contradicting the claim that such a notification never
mutates SharedState and is reported as a ProtocolFault. -/
theorem c1_origin_mismatch_counterexample :
    AsyncStylusHandler.dispatch false false (initTablet EasyTabOptions.default)
        (.StylusButtonDown 1 2)
      = .ok ⟨some (.StylusButtonDown 1 2),
             { active := false, x := 1, y := 2, pressure := 0.0,
               opts := EasyTabOptions.default, on_cb := none }, []⟩
    ∧ (initTablet EasyTabOptions.default).x = 0
    ∧ (initTablet EasyTabOptions.default).y = 0 :=
  ⟨rfl, rfl, rfl⟩

/-- C1 amended: only when debug assertions are compiled in, and only for the
six recognized notification kinds, does a mismatched origin stop the event:
the `debug_assert!` fails (a panic) before `handle_event` runs, so no state
mutation escapes and the observer is not invoked — the event is not
silently dropped. In release builds the origin is not checked at all, and
the ignored kinds never check it (see the counterexample). -/
theorem c1_origin_mismatch_debug_asserts (s : __InnerTablet) (x y : Int) :
    AsyncStylusHandler.dispatch true false s .RealTimeStylusDisabled = .error .assertionFailed
    ∧ AsyncStylusHandler.dispatch true false s .StylusOutOfRange = .error .assertionFailed
    ∧ AsyncStylusHandler.dispatch true false s .StylusDown = .error .assertionFailed
    ∧ AsyncStylusHandler.dispatch true false s .StylusUp = .error .assertionFailed
    ∧ AsyncStylusHandler.dispatch true false s (.StylusButtonDown x y) = .error .assertionFailed
    ∧ AsyncStylusHandler.dispatch true false s (.StylusButtonUp x y) = .error .assertionFailed :=
  ⟨rfl, rfl, rfl, rfl, rfl, rfl⟩

/-- C2 (code bug exhibit): delivering the raw sequence [contact-begin,
button-down(10,20), button-up(10,20), contact-end] to a freshly initialized
handle with a registered observer updates the state correctly
(`active = false, x = 10, y = 20`) but produces ZERO observer invocations —
not the four the claim requires — because the code that would invoke the
registered callback is commented out in `handle_event`. -/
theorem c2_observer_never_invoked :
    runNotifications true true
        (EasyTablet.on_set (initTablet EasyTabOptions.default) 0)
        [.StylusDown, .StylusButtonDown 10 20, .StylusButtonUp 10 20, .StylusUp]
      = .ok ({ active := false, x := 10, y := 20, pressure := 0.0,
               opts := EasyTabOptions.default, on_cb := some 0 }, []) :=
  rfl

/-- C6: the pressure field is never updated by any translated event —
applying any sequence of canonical events to a freshly constructed handle
leaves `pressure()` at its default `0.0`. -/
theorem c6_pressure_never_updated (evs : List WinTabEvent) (s2 : __InnerTablet)
    (calls : List WinTabEvent)
    (h : applyEvents (initTablet EasyTabOptions.default) evs = .ok (s2, calls)) :
    EasyTablet.pressure s2 = 0.0 := by
  rw [applyEvents_eq_foldl] at h
  injection h with h1
  injection h1 with ha hb
  subst ha
  show (evs.foldl applyPure (initTablet EasyTabOptions.default)).pressure = 0.0
  rw [foldl_applyPure_pressure]
  rfl

/-- C6 witness: the theorem instantiated at the concrete event sequence
[StylusActive, StylusButtonDown(3,4)] applied to a fresh handle. -/
theorem c6_pressure_witness :
    EasyTablet.pressure
      { active := true, x := 3, y := 4, pressure := 0.0,
        opts := EasyTabOptions.default, on_cb := none } = 0.0 :=
  c6_pressure_never_updated [.StylusActive, .StylusButtonDown 3 4]
    { active := true, x := 3, y := 4, pressure := 0.0,
      opts := EasyTabOptions.default, on_cb := none } [] rfl

/-- C7: `disable()` and `enable()` never modify the tablet state or the
registered observer slot: whatever the platform answers, either an error is
returned and no state is produced, or the call succeeds and hands back the
state exactly as it was; in particular, after the history [contact-begin,
button-down(3,4)] a `disable()` leaves `active = true, x = 3, y = 4` and
the observer slot untouched. -/
theorem c7_enable_disable_preserve_state (p : Win32Platform) (s : __InnerTablet) :
    ((∃ e, EasyTablet.disable p s = .error e) ∨ EasyTablet.disable p s = .ok ((), s))
    ∧ ((∃ e, EasyTablet.enable p s = .error e) ∨ EasyTablet.enable p s = .ok ((), s))
    ∧ EasyTablet.disable pOK
        { active := true, x := 3, y := 4, pressure := 0.0,
          opts := EasyTabOptions.default, on_cb := some 7 }
      = .ok ((), { active := true, x := 3, y := 4, pressure := 0.0,
                   opts := EasyTabOptions.default, on_cb := some 7 }) := by
  refine ⟨?_, ?_, rfl⟩
  · unfold EasyTablet.disable
    cases p.setEnabled false with
    | error e => exact Or.inl ⟨ERROR_FN e, rfl⟩
    | ok u => exact Or.inr rfl
  · unfold EasyTablet.enable
    cases p.setEnabled true with
    | error e => exact Or.inl ⟨ERROR_FN e, rfl⟩
    | ok u => exact Or.inr rfl

/-- Helper: `init_options` either succeeds with the fully defaulted tablet or
surfaces a platform failure as a returned `WinError`. -/
theorem init_options_surfaces (p : Win32Platform) (hwnd : Nat) (opts : EasyTabOptions) :
    EasyTablet.init_options p hwnd opts = .ok (initTablet opts)
    ∨ ∃ m, EasyTablet.init_options p hwnd opts = .error (.WinError m) := by
  unfold EasyTablet.init_options
  cases p.coCreateInstance with
  | error e => exact Or.inr ⟨e.message, rfl⟩
  | ok u1 =>
    cases p.setHWND with
    | error e => exact Or.inr ⟨e.message, rfl⟩
    | ok u2 =>
      cases p.getStylusAsyncPluginCount with
      | error e => exact Or.inr ⟨e.message, rfl⟩
      | ok n =>
        cases p.addStylusAsyncPlugin with
        | error e => exact Or.inr ⟨e.message, rfl⟩
        | ok u4 => exact Or.inl rfl

/-- C8: a freshly bound handle (a successful `init_options`) on which no
events have been delivered reports `active() = false`, `x() = 0`,
`y() = 0`, `pressure() = 0.0`, and has no observer registered. -/
theorem c8_fresh_handle_defaults (p : Win32Platform) (hwnd : Nat)
    (opts : EasyTabOptions) (t : __InnerTablet)
    (h : EasyTablet.init_options p hwnd opts = .ok t) :
    EasyTablet.active t = false ∧ EasyTablet.x t = 0 ∧ EasyTablet.y t = 0
    ∧ EasyTablet.pressure t = 0.0 ∧ t.on_cb = none := by
  rcases init_options_surfaces p hwnd opts with h2 | ⟨m, h2⟩
  · rw [h] at h2
    injection h2 with h3
    subst h3
    exact ⟨rfl, rfl, rfl, rfl, rfl⟩
  · rw [h] at h2
    exact Except.noConfusion h2

/-- C8 witness: the theorem instantiated at an all-succeeding platform. -/
theorem c8_fresh_handle_witness :
    EasyTablet.active (initTablet EasyTabOptions.default) = false
    ∧ EasyTablet.x (initTablet EasyTabOptions.default) = 0
    ∧ EasyTablet.y (initTablet EasyTabOptions.default) = 0
    ∧ EasyTablet.pressure (initTablet EasyTabOptions.default) = 0.0
    ∧ (initTablet EasyTabOptions.default).on_cb = none :=
  c8_fresh_handle_defaults pOK 0 EasyTabOptions.default
    (initTablet EasyTabOptions.default) rfl

/-- C9: `init`/`init_options` fail by returning the `WinError` carried by
whichever platform call refused (create, bind, plugin count, plugin add) —
the initialization path has no panic source, matching the source which only
uses `?` propagation — and `enable()`/`disable()` likewise surface a
refused `SetEnabled` as a returned error; when nothing fails the operations
return `Ok`. -/
theorem c9_platform_failures_surfaced (p : Win32Platform) (hwnd : Nat)
    (opts : EasyTabOptions) (s : __InnerTablet) (m : String) (n : Nat)
    (r2 : Except WinErr Unit) (r3 : Except WinErr Nat) (r4 : Except WinErr Unit)
    (f : Bool → Except WinErr Unit) :
    (EasyTablet.init_options p hwnd opts = .ok (initTablet opts)
      ∨ ∃ m2, EasyTablet.init_options p hwnd opts = .error (.WinError m2))
    ∧ EasyTablet.init_options ⟨.error ⟨m⟩, r2, r3, r4, f⟩ hwnd opts = .error (.WinError m)
    ∧ EasyTablet.init_options ⟨.ok (), .error ⟨m⟩, r3, r4, f⟩ hwnd opts = .error (.WinError m)
    ∧ EasyTablet.init_options ⟨.ok (), .ok (), .error ⟨m⟩, r4, f⟩ hwnd opts
        = .error (.WinError m)
    ∧ EasyTablet.init_options ⟨.ok (), .ok (), .ok n, .error ⟨m⟩, f⟩ hwnd opts
        = .error (.WinError m)
    ∧ EasyTablet.init ⟨.error ⟨m⟩, r2, r3, r4, f⟩ hwnd = .error (.WinError m)
    ∧ EasyTablet.enable ⟨.ok (), .ok (), .ok n, .ok (), fun _ => .error ⟨m⟩⟩ s
        = .error (.WinError m)
    ∧ EasyTablet.disable ⟨.ok (), .ok (), .ok n, .ok (), fun _ => .error ⟨m⟩⟩ s
        = .error (.WinError m)
    ∧ EasyTablet.enable pOK s = .ok ((), s)
    ∧ EasyTablet.disable pOK s = .ok ((), s) :=
  ⟨init_options_surfaces p hwnd opts, rfl, rfl, rfl, rfl, rfl, rfl, rfl, rfl, rfl⟩
